import Mathlib

/-!
Verification development for the flagwise consumer pipeline
(`services/consumer`): field encryption service, detection engine,
alert rate limiter and persistence sink, shallowly embedded in Lean.
-/

namespace Flagwise

/-! ## Field encryption service (`services/consumer/encryption_service.py`)

Fernet (the AEAD cipher used by the service) is modelled abstractly as a
pair of functions `enc`/`dec` together with the two facts the service
relies on: every produced token begins with the `gAAAAA` marker, and
decryption inverts encryption.  `dec x = none` models any exception
raised while decrypting `x` (invalid token, failed authentication). -/

/-- Embedding of Python `data.startswith('gAAAAA')`: character-level
prefix test. -/
def startsWithMarker (s : String) : Bool :=
  "gAAAAA".toList.isPrefixOf s.toList

/-- Abstract model of a `Fernet` instance for one field key: a total
encryption function and a fallible decryption function.  `enc_marker`
and `dec_enc` are the two properties of Fernet tokens the service
depends on. -/
structure FernetCipher where
  enc : String → String
  dec : String → Option String
  enc_marker : ∀ x, startsWithMarker (enc x) = true
  dec_enc : ∀ x, dec (enc x) = some x

/-- `EncryptionService.is_encrypted`: falsy input is not encrypted,
otherwise the `gAAAAA` marker decides. -/
def is_encrypted (data : Option String) : Bool :=
  match data with
  | none => false
  | some s => if s = "" then false else startsWithMarker s

/-- `EncryptionService.encrypt_field`: pass through falsy input,
disabled encryption, missing field key, or already-marked input;
otherwise encrypt. -/
def encrypt_field (c : FernetCipher) (enabled hasKey : Bool)
    (data : Option String) : Option String :=
  match data with
  | none => none
  | some s =>
    if s = "" then some s
    else if !enabled then some s
    else if !hasKey then some s
    else if is_encrypted (some s) then some s
    else some (c.enc s)

/-- `EncryptionService.decrypt_field`: pass through falsy input,
disabled encryption, missing field key, or unmarked input; otherwise
decrypt, and on a decryption exception return the original data
(the `except` branch of the source). -/
def decrypt_field (c : FernetCipher) (enabled hasKey : Bool)
    (data : Option String) : Option String :=
  match data with
  | none => none
  | some s =>
    if s = "" then some s
    else if !enabled then some s
    else if !hasKey then some s
    else if !is_encrypted (some s) then some s
    else
      match c.dec s with
      | some p => some p
      | none => some s

/-- A concrete cipher satisfying the Fernet contract, used to evaluate
the embedding on closed inputs: tokens are `"gAAAAAA" ++ plaintext`
(the marker plus one extra sentinel character), and decryption only
accepts strings of that shape. -/
def modelCipher : FernetCipher where
  enc x := "gAAAAAA" ++ x
  dec s :=
    if "gAAAAAA".toList.isPrefixOf s.toList then
      some (String.mk (s.toList.drop 7))
    else none
  enc_marker := by
    intro x
    simp [startsWithMarker, String.toList, List.isPrefixOf]
  dec_enc := by
    intro x
    simp [String.toList, List.isPrefixOf]

/-! ## Detection engine (`services/consumer/detection_engine.py`)

The regex engine is abstracted as a compilation function
`String → Option (String → Bool)`: `none` models `re.error` on an
uncompilable pattern, `some f` a compiled pattern whose `search` is
`f`. -/

/-- `DetectionRule` from `detection_engine.py`. -/
structure DetectionRule where
  id : String
  name : String
  description : String
  rule_type : String
  pattern : String
  severity : String
  points : Int
  is_active : Bool
deriving DecidableEq

/-- The fields of `DatabaseRecord` (`models.py`) the detection engine
reads and writes. -/
structure DatabaseRecord where
  id : String
  prompt : String
  response : Option String
  model : String
  risk_score : Int
  is_flagged : Bool
  flag_reason : Option String
deriving DecidableEq

/-- Embedding of Python `s.split(',')` on the character list: split at
every separator, keeping empty pieces (so `""` yields `[""]` and
`"a,,b"` yields `["a", "", "b"]`, as in Python). -/
def splitChar (sep : Char) : List Char → List (List Char)
  | [] => [[]]
  | c :: cs =>
    match splitChar sep cs, c == sep with
    | r, true => [] :: r
    | [], false => [[c]]
    | h :: t, false => (c :: h) :: t

/-- Embedding of Python `s.split(sep)` for a one-character separator. -/
def pySplit (sep : Char) (s : String) : List String :=
  (splitChar sep s.toList).map String.mk

/-- Embedding of Python `s.strip()`: drop whitespace from both ends. -/
def pyStrip (s : String) : String :=
  String.mk
    (((s.toList.dropWhile Char.isWhitespace).reverse.dropWhile
        Char.isWhitespace).reverse)

/-- Embedding of Python `s.lower()`: lowercase character by character. -/
def pyLower (s : String) : String :=
  String.mk (s.toList.map Char.toLower)

/-- Embedding of Python `needle in hay`: some suffix of `hay` has
`needle` as a prefix. -/
def containsSubstr (needle hay : String) : Bool :=
  hay.toList.tails.any (fun t => needle.toList.isPrefixOf t)

/-- Strict lexicographic order on character lists (the comparison the
rule store's `ORDER BY severity DESC` performs on the severity
strings). -/
def lexLt : List Char → List Char → Bool
  | [], [] => false
  | [], _ :: _ => true
  | _ :: _, [] => false
  | a :: as, b :: bs =>
    if a < b then true else if b < a then false else lexLt as bs

/-- Lexicographic comparison of two severity strings. -/
def severityLt (a b : String) : Bool :=
  lexLt a.toList b.toList

/-- `DetectionEngine._check_keyword_rule`: split the pattern on commas,
strip and lowercase each keyword, match if any keyword occurs in the
lowercased prompt. -/
def check_keyword_rule (record : DatabaseRecord) (rule : DetectionRule) : Bool :=
  if record.prompt = "" then false
  else
    let keywords := (pySplit ',' rule.pattern).map (fun kw => pyLower (pyStrip kw))
    let prompt_lower := pyLower record.prompt
    keywords.any (fun kw => containsSubstr kw prompt_lower)

/-- `DetectionEngine._check_regex_rule`: an uncompilable pattern
(`re.error`, modelled by `compile pat = none`) is a non-match;
otherwise search the prompt. -/
def check_regex_rule (compile : String → Option (String → Bool))
    (record : DatabaseRecord) (rule : DetectionRule) : Bool :=
  if record.prompt = "" then false
  else
    match compile rule.pattern with
    | none => false
    | some f => f record.prompt

/-- `DetectionEngine._check_model_restriction_rule`: split the pattern
on commas, strip and lowercase, match if the lowercased model is in the
list. -/
def check_model_restriction_rule (record : DatabaseRecord)
    (rule : DetectionRule) : Bool :=
  if record.model = "" then false
  else
    let restricted := (pySplit ',' rule.pattern).map (fun m => pyLower (pyStrip m))
    restricted.contains (pyLower record.model)

/-- `DetectionEngine._check_rule`: dispatch on `rule_type`; an unknown
type is a non-match, and any evaluation error is caught and treated as
a non-match (the regex-compilation error path is explicit in
`check_regex_rule`). -/
def check_rule (compile : String → Option (String → Bool))
    (record : DatabaseRecord) (rule : DetectionRule) : Bool :=
  if rule.rule_type = "keyword" then check_keyword_rule record rule
  else if rule.rule_type = "regex" then check_regex_rule compile record rule
  else if rule.rule_type = "model_restriction" then
    check_model_restriction_rule record rule
  else false

/-- The rules that match a record, in rule-list order (the loop of
`_process_single_record` visits rules in list order). -/
def matchedRules (compile : String → Option (String → Bool))
    (record : DatabaseRecord) (rules : List DetectionRule) : List DetectionRule :=
  rules.filter (fun r => check_rule compile record r)

/-- `DetectionEngine._process_single_record`: accumulate points and
names of matching rules in order, cap the score at 100, set
`is_flagged` iff the capped score is positive, and set `flag_reason`
only when some rule matched (otherwise it is left unchanged). -/
def process_single_record (compile : String → Option (String → Bool))
    (record : DatabaseRecord) (rules : List DetectionRule) : DatabaseRecord :=
  let matched := matchedRules compile record rules
  let total : Int := (matched.map (fun r => r.points)).sum
  let score := min total 100
  { record with
    risk_score := score
    is_flagged := score > 0
    flag_reason :=
      if matched.isEmpty then record.flag_reason
      else some (String.intercalate ", " (matched.map (fun r => r.name))) }

/-- The snapshot ordering of `RuleCache._refresh_rules`
(`ORDER BY severity DESC, points DESC`): severity strictly greater, or
equal severity and points no smaller. -/
def snapshotOrder (a b : DetectionRule) : Prop :=
  severityLt b.severity a.severity = true ∨
    (a.severity = b.severity ∧ b.points ≤ a.points)

/-! ## Alert dispatcher (`services/consumer/alert_service.py`)

Time is modelled in seconds as `Nat`; the timestamp deque of
`RateLimiter` is a list with its head the oldest entry.  The Slack
webhook call is modelled by a boolean `deliverOk` (HTTP 200 or not);
`runAlerts` returns the per-attempt delivery statuses in arrival order
together with the number of network calls made. -/

/-- The eviction loop of `RateLimiter.can_send_alert`: pop entries from
the head while they are older than the window. -/
def evictOld (now window : Nat) : List Nat → List Nat
  | [] => []
  | t :: ts => if now - t > window then evictOld now window ts else t :: ts

/-- `RateLimiter.can_send_alert`: evict expired timestamps, then allow
(and append `now`) iff the queue is below `maxAlerts`.  Returns the
decision and the updated queue. -/
def can_send_alert (maxAlerts window now : Nat) (q : List Nat) :
    Bool × List Nat :=
  let q1 := evictOld now window q
  if q1.length < maxAlerts then (true, q1 ++ [now]) else (false, q1)

/-- `SlackAlertService.should_send_alert`: webhook configured, record
flagged, and risk score at or above the threshold. -/
def should_send_alert (webhookConfigured : Bool) (threshold : Int)
    (record : DatabaseRecord) : Bool :=
  if !webhookConfigured then false
  else if !record.is_flagged then false
  else if record.risk_score < threshold then false
  else true

/-- `SlackAlertService.send_alert` over a sequence of alert-eligible
attempts at the given times: each attempt first consults the rate
limiter; a rate-limited attempt logs status `"rate_limited"` and makes
no network call, otherwise one network call is made and status
`"sent"` or `"failed"` is logged by outcome.  Returns the statuses in
arrival order and the number of network calls. -/
def runAlerts (maxAlerts window : Nat) (deliverOk : Bool)
    (q : List Nat) : List Nat → List String × Nat
  | [] => ([], 0)
  | now :: rest =>
    match can_send_alert maxAlerts window now q with
    | (true, q1) =>
      let out := runAlerts maxAlerts window deliverOk q1 rest
      ((if deliverOk then "sent" else "failed") :: out.1, out.2 + 1)
    | (false, q1) =>
      let out := runAlerts maxAlerts window deliverOk q1 rest
      ("rate_limited" :: out.1, out.2)

/-! ## Persistence sink (`services/consumer/database.py`)

`bulk_insert_llm_requests` encrypts the sensitive fields of each
record, then issues one plain `INSERT` per record inside a single
transaction via `execute_batch` — there is no `ON CONFLICT` clause.
Modelled from the spec: the `llm_requests` table (its schema is not
under `src/`) is keyed by the record identifier (unique primary key on
`id`), so inserting a row whose `id` is already stored raises a
unique-constraint violation; the exception aborts and rolls back the
whole transaction and is caught by the `except` branch, leaving
`successful_inserts = 0`. -/

/-- A row of `llm_requests` as written by the sink: identifier plus the
encrypted payload fields (the remaining metadata columns are copied
verbatim and play no role in the keying). -/
structure InsertRow where
  id : String
  prompt : Option String
  response : Option String
  risk_score : Int
  is_flagged : Bool
  flag_reason : Option String
deriving DecidableEq

/-- The tuple built for one record in the loop of
`bulk_insert_llm_requests`: sensitive fields pass through
`encrypt_field` before the write. -/
def toInsertRow (c : FernetCipher) (enabled hasKey : Bool)
    (r : DatabaseRecord) : InsertRow :=
  { id := r.id
    prompt := encrypt_field c enabled hasKey (some r.prompt)
    response := encrypt_field c enabled hasKey r.response
    risk_score := r.risk_score
    is_flagged := r.is_flagged
    flag_reason := r.flag_reason }

/-- `true` iff the list of identifiers contains a repeated entry. -/
def hasDupIds : List String → Bool
  | [] => false
  | x :: xs => xs.contains x || hasDupIds xs

/-- `DatabaseManager.bulk_insert_llm_requests`: empty batch returns 0;
otherwise build the encrypted rows and insert them in one transaction.
A unique-key conflict (an id already stored, or repeated within the
batch) raises, the transaction is rolled back, the exception is caught
and 0 is returned with the table unchanged; otherwise all rows are
appended and their count returned. -/
def bulk_insert_llm_requests (c : FernetCipher) (enabled hasKey : Bool)
    (table : List InsertRow) (records : List DatabaseRecord) :
    List InsertRow × Nat :=
  if records.isEmpty then (table, 0)
  else
    let rows := records.map (toInsertRow c enabled hasKey)
    let ids := rows.map (fun r => r.id)
    if ids.any (fun i => table.any (fun t => t.id == i)) || hasDupIds ids then
      (table, 0)
    else (table ++ rows, rows.length)

/-! ## Concrete sample data

Used by the closed witnesses and counterexamples below. -/

/-- A fresh incoming record, as built by `DatabaseRecord.from_llm_request`
(score fields at their defaults). -/
def sampleRecord : DatabaseRecord :=
  { id := "a1"
    prompt := "my password is secret"
    response := none
    model := "gpt-4"
    risk_score := 0
    is_flagged := false
    flag_reason := none }

/-- A keyword rule matching `sampleRecord`. -/
def ruleKeyword : DetectionRule :=
  { id := "1", name := "kw", description := ""
    rule_type := "keyword", pattern := "password,secret"
    severity := "high", points := 10, is_active := true }

/-- A keyword rule worth zero points that matches `sampleRecord`. -/
def ruleZero : DetectionRule :=
  { id := "2", name := "zero", description := ""
    rule_type := "keyword", pattern := "secret"
    severity := "low", points := 0, is_active := true }

/-- A model-restriction rule matching `sampleRecord`. -/
def ruleModelR : DetectionRule :=
  { id := "3", name := "mdl", description := ""
    rule_type := "model_restriction", pattern := "gpt-4,claude-3-opus"
    severity := "critical", points := 80, is_active := true }

/-- A regex rule whose pattern does not compile (`re.error`). -/
def ruleBadRegex : DetectionRule :=
  { id := "4", name := "bad", description := ""
    rule_type := "regex", pattern := "("
    severity := "medium", points := 50, is_active := true }

/-- A keyword rule whose comma-separated pattern has an empty item. -/
def ruleEmptyKeyword : DetectionRule :=
  { id := "5", name := "emptykw", description := ""
    rule_type := "keyword", pattern := "zzzz,,qqqq"
    severity := "low", points := 5, is_active := true }

/-- The stored row produced by persisting `sampleRecord`. -/
def storedSampleRow : InsertRow := toInsertRow modelCipher true true sampleRecord

/-! ## Encryption service lemmas -/

/-- A produced token is never the empty string (it carries the marker). -/
theorem enc_ne_empty (c : FernetCipher) (s : String) : c.enc s ≠ "" := by
  intro h
  have hmk := c.enc_marker s
  rw [h] at hmk
  exact absurd hmk (by decide)

/-- A produced token is classified as encrypted. -/
theorem is_encrypted_enc (c : FernetCipher) (s : String) :
    is_encrypted (some (c.enc s)) = true := by
  simp [is_encrypted, enc_ne_empty c s, c.enc_marker s]

/-- On enabled encryption, an unmarked non-empty plaintext is actually
encrypted. -/
theorem encrypt_field_unmarked (c : FernetCipher) (s : String)
    (hne : s ≠ "") (hm : startsWithMarker s = false) :
    encrypt_field c true true (some s) = some (c.enc s) := by
  simp [encrypt_field, is_encrypted, hne, hm]

/-- On enabled encryption, decrypting a produced token recovers the
plaintext. -/
theorem decrypt_field_enc (c : FernetCipher) (s : String) :
    decrypt_field c true true (some (c.enc s)) = some s := by
  simp [decrypt_field, is_encrypted, enc_ne_empty c s, c.enc_marker s, c.dec_enc s]

/-! ## C2: encryption round-trip -/

/-- C2 counterexample: the round-trip `decrypt(field, encrypt(field, x)) == x`
fails for a plaintext that is itself a valid token of the field cipher:
`encrypt_field` classifies it as already encrypted and returns it
unchanged, and `decrypt_field` then decrypts it to a different string.
Here `x = "gAAAAAAhi"` (a `modelCipher` token of `"hi"`) round-trips to
`"hi"`, not to `x`. -/
theorem encrypt_roundtrip_counterexample :
    decrypt_field modelCipher true true
        (encrypt_field modelCipher true true (some "gAAAAAAhi")) = some "hi" ∧
      decrypt_field modelCipher true true
        (encrypt_field modelCipher true true (some "gAAAAAAhi")) ≠
        some "gAAAAAAhi" := by
  decide

/-- C2 (amended): for every enabled field and every string `x` that is
not itself a decryptable token with a different plaintext — in
particular every `x` without the `gAAAAA` marker, and every marked `x`
whose decryption fails — `decrypt(field, encrypt(field, x)) == x`. -/
theorem encrypt_roundtrip (c : FernetCipher) (s : String)
    (h : startsWithMarker s = false ∨ c.dec s = none ∨ c.dec s = some s) :
    decrypt_field c true true (encrypt_field c true true (some s)) = some s := by
  by_cases hne : s = ""
  · subst hne
    simp [encrypt_field, decrypt_field]
  · by_cases hm : startsWithMarker s = true
    · have henc : encrypt_field c true true (some s) = some s := by
        simp [encrypt_field, is_encrypted, hne, hm]
      rw [henc]
      rcases h with h | h | h
      · rw [hm] at h
        exact absurd h (by simp)
      · simp [decrypt_field, is_encrypted, hne, hm, h]
      · simp [decrypt_field, is_encrypted, hne, hm, h]
    · have hm' : startsWithMarker s = false := by simpa using hm
      rw [encrypt_field_unmarked c s hne hm', decrypt_field_enc]

/-- Witness for C2: the round-trip at the unmarked plaintext `"hello"`. -/
theorem encrypt_roundtrip_witness :
    startsWithMarker "hello" = false ∧
      decrypt_field modelCipher true true
        (encrypt_field modelCipher true true (some "hello")) = some "hello" :=
  ⟨by decide, encrypt_roundtrip modelCipher "hello" (Or.inl (by decide))⟩

/-! ## C3: no double encryption -/

/-- C3 counterexample: `encrypt(field, decrypt(field, encrypt(field, x)))
== encrypt(field, x)` fails for the non-empty plaintext
`x = "gAAAAAAgAAAAAhi"`: it carries the marker, so `encrypt_field`
returns it unchanged, `decrypt_field` decrypts it to `"gAAAAAhi"`, and
re-encrypting that marked string leaves it unchanged — which differs
from `encrypt_field x = x`. -/
theorem no_double_encryption_counterexample :
    encrypt_field modelCipher true true
        (decrypt_field modelCipher true true
          (encrypt_field modelCipher true true (some "gAAAAAAgAAAAAhi")))
      = some "gAAAAAhi" ∧
    encrypt_field modelCipher true true (some "gAAAAAAgAAAAAhi") =
      some "gAAAAAAgAAAAAhi" ∧
    ("gAAAAAhi" : String) ≠ "gAAAAAAgAAAAAhi" := by
  decide

/-- C3 (amended): for every enabled field and every non-empty plaintext
`x` that does not already carry the ciphertext marker,
`encrypt(field, decrypt(field, encrypt(field, x))) == encrypt(field, x)`
(with the cipher modelled as a deterministic function). -/
theorem no_double_encryption (c : FernetCipher) (s : String)
    (hne : s ≠ "") (hm : startsWithMarker s = false) :
    encrypt_field c true true
        (decrypt_field c true true (encrypt_field c true true (some s)))
      = encrypt_field c true true (some s) := by
  rw [encrypt_field_unmarked c s hne hm, decrypt_field_enc,
    encrypt_field_unmarked c s hne hm]

/-- Witness for C3: the no-double-encryption equation at `"hello"`. -/
theorem no_double_encryption_witness :
    ("hello" : String) ≠ "" ∧ startsWithMarker "hello" = false ∧
      encrypt_field modelCipher true true
          (decrypt_field modelCipher true true
            (encrypt_field modelCipher true true (some "hello")))
        = encrypt_field modelCipher true true (some "hello") :=
  ⟨by decide, by decide, no_double_encryption modelCipher "hello" (by decide) (by decide)⟩

/-! ## C4: decryption failure handling -/

/-- C4 counterexample: `"gAAAAAB"` carries the encrypted marker and its
decryption fails (`dec = none`), yet `decrypt_field` returns the
ciphertext itself to the caller — not a decryption-failed indication. -/
theorem decrypt_failure_counterexample :
    startsWithMarker "gAAAAAB" = true ∧
      modelCipher.dec "gAAAAAB" = none ∧
      decrypt_field modelCipher true true (some "gAAAAAB") = some "gAAAAAB" := by
  decide

/-- C4 (amended): for every enabled field and every non-empty marked
input whose decryption fails, `decrypt_field` logs the error and
returns the input unchanged — the caller receives the marked ciphertext
back rather than a dedicated decryption-failed indication. -/
theorem decrypt_failure_passthrough (c : FernetCipher) (s : String)
    (hne : s ≠ "") (hm : startsWithMarker s = true) (hfail : c.dec s = none) :
    decrypt_field c true true (some s) = some s := by
  simp [decrypt_field, is_encrypted, hne, hm, hfail]

/-- Witness for C4: the failing marked input `"gAAAAAB"`. -/
theorem decrypt_failure_passthrough_witness :
    ("gAAAAAB" : String) ≠ "" ∧ startsWithMarker "gAAAAAB" = true ∧
      modelCipher.dec "gAAAAAB" = none ∧
      decrypt_field modelCipher true true (some "gAAAAAB") = some "gAAAAAB" :=
  ⟨by decide, by decide, by decide,
    decrypt_failure_passthrough modelCipher "gAAAAAB" (by decide) (by decide) (by decide)⟩

/-! ## C9: marked plaintext is stored without encryption -/

/-- C9: for every enabled field, every non-empty plaintext beginning
with the `gAAAAA` marker is classified as already encrypted and
returned unchanged by `encrypt_field` — it is stored without actual
encryption. -/
theorem encrypt_marked_passthrough (c : FernetCipher) (s : String)
    (hne : s ≠ "") (hm : startsWithMarker s = true) :
    encrypt_field c true true (some s) = some s := by
  simp [encrypt_field, is_encrypted, hne, hm]

/-- Witness for C9: the marked plaintext `"gAAAAAhello"` (not a valid
token, merely marker-prefixed) passes through `encrypt_field`. -/
theorem encrypt_marked_passthrough_witness :
    ("gAAAAAhello" : String) ≠ "" ∧ startsWithMarker "gAAAAAhello" = true ∧
      encrypt_field modelCipher true true (some "gAAAAAhello") = some "gAAAAAhello" :=
  ⟨by decide, by decide,
    encrypt_marked_passthrough modelCipher "gAAAAAhello" (by decide) (by decide)⟩

/-! ## C1: risk score bounds and flagging -/

/-- C1: for every rule set and record, after detection `risk_score` is
the sum of the points of the matching rules capped at 100, lies in
`[0, 100]` (given the rule store's invariant that points are
non-negative), and `is_flagged` holds iff `risk_score > 0`. -/
theorem risk_score_bounds (compile : String → Option (String → Bool))
    (record : DatabaseRecord) (rules : List DetectionRule)
    (hpts : ∀ r ∈ rules, 0 ≤ r.points) :
    (process_single_record compile record rules).risk_score =
        min (((matchedRules compile record rules).map (fun r => r.points)).sum) 100 ∧
      0 ≤ (process_single_record compile record rules).risk_score ∧
      (process_single_record compile record rules).risk_score ≤ 100 ∧
      ((process_single_record compile record rules).is_flagged = true ↔
        0 < (process_single_record compile record rules).risk_score) := by
  have hsum : 0 ≤ ((matchedRules compile record rules).map (fun r => r.points)).sum := by
    apply List.sum_nonneg
    intro x hx
    rcases List.mem_map.mp hx with ⟨r, hr, hrx⟩
    have hrr : r ∈ rules := List.mem_of_mem_filter hr
    rw [← hrx]
    exact hpts r hrr
  have hrs : (process_single_record compile record rules).risk_score =
      min (((matchedRules compile record rules).map (fun r => r.points)).sum) 100 := rfl
  have hfl : (process_single_record compile record rules).is_flagged =
      decide (0 < (process_single_record compile record rules).risk_score) := rfl
  refine ⟨hrs, ?_, ?_, ?_⟩
  · rw [hrs]
    exact le_min hsum (by norm_num)
  · rw [hrs]
    exact min_le_right _ _
  · rw [hfl]
    simp

/-- Witness for C1: score of `sampleRecord` against two matching rules
worth 80 and 10 points stays within bounds. -/
theorem risk_score_bounds_witness :
    0 ≤ (process_single_record (fun _ => none) sampleRecord
          [ruleModelR, ruleKeyword]).risk_score ∧
      (process_single_record (fun _ => none) sampleRecord
          [ruleModelR, ruleKeyword]).risk_score ≤ 100 :=
  ⟨(risk_score_bounds (fun _ => none) sampleRecord [ruleModelR, ruleKeyword]
      (by decide)).2.1,
    (risk_score_bounds (fun _ => none) sampleRecord [ruleModelR, ruleKeyword]
      (by decide)).2.2.1⟩

/-! ## C6: flag_reason contents and ordering -/

/-- Decidability of the snapshot ordering. -/
instance snapshotOrderDec (a b : DetectionRule) : Decidable (snapshotOrder a b) := by
  unfold snapshotOrder
  infer_instance

/-- C6 counterexample: a matching rule worth zero points leaves
`is_flagged` false (the capped score is 0) while `flag_reason` is still
set to the matched rule names — so flag_reason is not absent whenever
`is_flagged` is false. -/
theorem flag_reason_not_flagged_counterexample :
    (process_single_record (fun _ => none) sampleRecord [ruleZero]).is_flagged
        = false ∧
      (process_single_record (fun _ => none) sampleRecord [ruleZero]).flag_reason
        = some "zero" := by
  decide

/-- C6 (amended): for a fresh record (no prior `flag_reason`) and a rule
list in snapshot order (severity descending then points descending, the
order of `RuleCache`), the matched rules stay in snapshot order and
`flag_reason` is the comma-joined list of their names — and it is
absent exactly when no rule matched.  (When rules matched but all carry
zero points, `is_flagged` is false yet `flag_reason` is still set.) -/
theorem flag_reason_spec (compile : String → Option (String → Bool))
    (record : DatabaseRecord) (rules : List DetectionRule)
    (hsorted : rules.Pairwise snapshotOrder)
    (hfresh : record.flag_reason = none) :
    (matchedRules compile record rules).Pairwise snapshotOrder ∧
      (process_single_record compile record rules).flag_reason =
        (if (matchedRules compile record rules).isEmpty then none
         else some (String.intercalate ", "
           ((matchedRules compile record rules).map (fun r => r.name)))) := by
  constructor
  · exact hsorted.filter _
  · have h : (process_single_record compile record rules).flag_reason =
        (if (matchedRules compile record rules).isEmpty then record.flag_reason
         else some (String.intercalate ", "
           ((matchedRules compile record rules).map (fun r => r.name)))) := rfl
    rw [h, hfresh]

/-- Witness for C6: both rules match `sampleRecord`; the reason list
keeps the snapshot order of the rule list. -/
theorem flag_reason_spec_witness :
    (process_single_record (fun _ => none) sampleRecord
        [ruleZero, ruleKeyword]).flag_reason = some "zero, kw" := by
  have h := (flag_reason_spec (fun _ => none) sampleRecord [ruleZero, ruleKeyword]
    (by decide) rfl).2
  rw [h]
  decide

/-! ## C8: a bad rule degrades to a non-match -/

/-- C8: a regex rule whose pattern fails to compile is treated as a
non-match, and scoring a record against a rule set containing it gives
exactly the result of scoring against the remaining rules — the bad
rule never aborts evaluation of the others. -/
theorem bad_rule_non_match (compile : String → Option (String → Bool))
    (record : DatabaseRecord) (l1 l2 : List DetectionRule) (bad : DetectionRule)
    (htype : bad.rule_type = "regex") (hbad : compile bad.pattern = none) :
    check_rule compile record bad = false ∧
      process_single_record compile record (l1 ++ bad :: l2) =
        process_single_record compile record (l1 ++ l2) := by
  have hch : check_rule compile record bad = false := by
    simp [check_rule, htype, check_regex_rule, hbad]
  refine ⟨hch, ?_⟩
  have hm : matchedRules compile record (l1 ++ bad :: l2) =
      matchedRules compile record (l1 ++ l2) := by
    simp [matchedRules, List.filter_append, List.filter_cons, hch]
  simp [process_single_record, hm]

/-- Witness for C8: the uncompilable pattern `"("` between two good
rules changes nothing. -/
theorem bad_rule_non_match_witness :
    check_rule (fun _ => none) sampleRecord ruleBadRegex = false ∧
      process_single_record (fun _ => none) sampleRecord
          [ruleKeyword, ruleBadRegex, ruleModelR] =
        process_single_record (fun _ => none) sampleRecord
          [ruleKeyword, ruleModelR] :=
  bad_rule_non_match (fun _ => none) sampleRecord [ruleKeyword] [ruleModelR]
    ruleBadRegex rfl rfl

/-! ## C10: empty keyword item matches everything -/

/-- The empty string occurs in every string. -/
theorem containsSubstr_empty (hay : String) : containsSubstr "" hay = true := by
  rw [containsSubstr, List.any_eq_true]
  refine ⟨hay.toList, (List.mem_tails _ _).mpr (List.suffix_refl _), ?_⟩
  show "".toList.isPrefixOf hay.toList = true
  cases hay.toList <;> rfl

/-- C10: a keyword rule whose comma-separated pattern contains an item
that strips to the empty string matches every record with a non-empty
prompt, because the empty keyword is a substring of every prompt. -/
theorem empty_keyword_matches (compile : String → Option (String → Bool))
    (record : DatabaseRecord) (rule : DetectionRule)
    (htype : rule.rule_type = "keyword")
    (hkw : ∃ kw ∈ pySplit ',' rule.pattern, pyStrip kw = "")
    (hprompt : record.prompt ≠ "") :
    check_rule compile record rule = true := by
  rcases hkw with ⟨kw, hmem, htrim⟩
  have hmain : ((pySplit ',' rule.pattern).map (fun kw => pyLower (pyStrip kw))).any
      (fun kw => containsSubstr kw (pyLower record.prompt)) = true := by
    rw [List.any_eq_true]
    refine ⟨"", ?_, containsSubstr_empty _⟩
    apply List.mem_map.mpr
    exact ⟨kw, hmem, by rw [htrim]; rfl⟩
  simp [check_rule, htype, check_keyword_rule, hprompt, hmain]

/-- Witness for C10: the pattern `"zzzz,,qqqq"` (doubled comma) matches
`sampleRecord` although no non-empty keyword occurs in its prompt. -/
theorem empty_keyword_matches_witness :
    (∃ kw ∈ pySplit ',' ruleEmptyKeyword.pattern, pyStrip kw = "") ∧
      check_rule (fun _ => none) sampleRecord ruleEmptyKeyword = true :=
  ⟨⟨"", by decide, by decide⟩,
    empty_keyword_matches (fun _ => none) sampleRecord ruleEmptyKeyword rfl
      ⟨"", by decide, by decide⟩ (by decide)⟩

/-! ## C5: alert rate limiting -/

/-- No timestamp is evicted while every queued entry is still inside
the window. -/
theorem evictOld_of_inWindow (now window : Nat) (q : List Nat)
    (h : ∀ t ∈ q, now - t ≤ window) : evictOld now window q = q := by
  cases q with
  | nil => rfl
  | cons t ts =>
    have ht := h t (List.mem_cons_self t ts)
    have h0 : ¬ (now - t > window) := by omega
    simp [evictOld, h0]

/-- Behaviour of the alert loop when every attempt falls inside one
window of every queued or earlier timestamp: no evictions happen, the
first `5 - q.length` attempts are sent and all later ones are
rate-limited, and exactly one network call is made per sent attempt. -/
theorem runAlerts_all_in_window (window : Nat) (ts : List Nat) :
    ∀ q : List Nat, (∀ x ∈ q ++ ts, ∀ t ∈ ts, t - x ≤ window) →
      runAlerts 5 window true q ts =
        (List.replicate (min ts.length (5 - q.length)) "sent" ++
            List.replicate (ts.length - (5 - q.length)) "rate_limited",
          min ts.length (5 - q.length)) := by
  induction ts with
  | nil =>
    intro q h
    simp [runAlerts]
  | cons now rest ih =>
    intro q h
    have hq : ∀ x ∈ q, now - x ≤ window := by
      intro x hx
      exact h x (List.mem_append_left _ hx) now (List.mem_cons_self _ _)
    have hev : evictOld now window q = q := evictOld_of_inWindow now window q hq
    by_cases hlen : q.length < 5
    · have harg : ∀ x ∈ (q ++ [now]) ++ rest, ∀ t ∈ rest, t - x ≤ window := by
        intro x hx t ht
        have hx' : x ∈ q ++ now :: rest := by
          simp only [List.mem_append, List.mem_cons, List.mem_singleton] at hx ⊢
          tauto
        exact h x hx' t (List.mem_cons_of_mem _ ht)
      have hrec := ih (q ++ [now]) harg
      have e1 : (rest.length + 1) ⊓ (5 - q.length) =
          rest.length ⊓ (5 - (q.length + 1)) + 1 := by omega
      have e2 : rest.length + 1 - (5 - q.length) =
          rest.length - (5 - (q.length + 1)) := by omega
      simp only [runAlerts, can_send_alert, hev, hlen, ite_true, ite_false, hrec,
        List.length_append, List.length_cons, List.length_nil, Nat.zero_add,
        List.length_singleton]
      rw [Prod.mk.injEq]
      refine ⟨?_, ?_⟩
      · rw [e1, e2, List.replicate_succ, List.cons_append]
      · rw [e1]
    · have harg : ∀ x ∈ q ++ rest, ∀ t ∈ rest, t - x ≤ window := by
        intro x hx t ht
        have hx' : x ∈ q ++ now :: rest := by
          simp only [List.mem_append, List.mem_cons] at hx ⊢
          tauto
        exact h x hx' t (List.mem_cons_of_mem _ ht)
      have hrec := ih q harg
      have hz : 5 - q.length = 0 := by omega
      simp only [runAlerts, can_send_alert, hev, hlen, ite_true, ite_false,
        List.length_cons, hrec, hz, Nat.min_zero, Nat.sub_zero,
        List.replicate_succ, List.replicate_zero, List.nil_append]

/-- C5: submitting 8 alert-eligible records within one rolling minute
(all pairwise gaps at most 60 seconds), with delivery succeeding,
yields exactly 5 attempts with status `sent` followed by 3 with status
`rate_limited` in arrival order, and exactly 5 network calls — the
rate-limited attempts make none. -/
theorem alerts_rate_limited (ts : List Nat)
    (hlen : ts.length = 8)
    (hwin : ∀ a ∈ ts, ∀ b ∈ ts, b - a ≤ 60) :
    runAlerts 5 60 true [] ts =
      (["sent", "sent", "sent", "sent", "sent",
        "rate_limited", "rate_limited", "rate_limited"], 5) := by
  have h : ∀ x ∈ ([] : List Nat) ++ ts, ∀ t ∈ ts, t - x ≤ 60 := by
    simpa using hwin
  rw [runAlerts_all_in_window 60 ts [] h, hlen]
  rfl

/-- Witness for C5: eight eligible attempts at seconds 0 through 7. -/
theorem alerts_rate_limited_witness :
    runAlerts 5 60 true [] [0, 1, 2, 3, 4, 5, 6, 7] =
      (["sent", "sent", "sent", "sent", "sent",
        "rate_limited", "rate_limited", "rate_limited"], 5) :=
  alerts_rate_limited [0, 1, 2, 3, 4, 5, 6, 7] (by decide) (by decide)

/-! ## C7: the bulk write is not an idempotent upsert -/

/-- C7: the sink's bulk write is a plain `INSERT` with no
`ON CONFLICT` clause, so a batch containing a record whose identifier
is already stored does not succeed: the unique-key violation aborts
and rolls back the whole transaction, the exception is caught, nothing
is written and 0 is returned — not the count of records written.
Re-delivery of an already-persisted record therefore fails the batch
instead of being absorbed idempotently. -/
theorem bulk_insert_duplicate_id_fails :
    bulk_insert_llm_requests modelCipher true true [storedSampleRow]
        [sampleRecord] = ([storedSampleRow], 0) ∧
      (bulk_insert_llm_requests modelCipher true true [storedSampleRow]
          [sampleRecord]).2 ≠ 1 ∧
      bulk_insert_llm_requests modelCipher true true [] [sampleRecord] =
        ([storedSampleRow], 1) := by
  decide

end Flagwise
